import Mathlib

/-!
Shallow embedding of the batch/retry engine of the landing-ai extract
node SDK (`src/domain/services/batch_processing.service.js` and
`src/domain/entities/documents.js`), together with the statistics
reported by `DocumentAIService.getProcessingStats` (both variants).

Modelling conventions:
* JS numbers holding integral configuration values are modelled as `Int`
  (`parseInt` can produce negative values); `parseInt` results that are
  `NaN` (unset or unparsable environment variables) are `Option.none`.
* JS truthiness of a number is `≠ 0`; of a string, `≠ ""`; of `null` /
  `undefined`, `false`.
* The `FilePath` value object (`src/domain/value-objects/file_path.js`) is a
  consumed capability of the Document entity; its observable answers
  (`isLocalPath`, `exists`, `validateForProcessing().errors`) are carried as
  plain data fields on the embedded `Document`.
* `Date` values are modelled as `Int` millisecond timestamps; operations that
  read the clock take an explicit `now : Int` parameter.
* The extraction function handed to `processBatch` is an external stateful
  collaborator: successive invocations on the same document may differ, so it
  is modelled as a family `Document → Int → Except String α` indexed by the
  attempt number, returning the result payload or the message of the thrown error.
* Within a chunk the source dispatches documents concurrently and joins on
  the whole chunk; the per-document bookkeeping is modelled as a sequential
  fold in chunk order (counts and set-of-results are interleaving-invariant;
  only the relative order of appends within one chunk is fixed by the model).
* `PDResult`/`BatchRun` carry a ghost `attemptsMade` counter instrumenting
  how many times the extraction function was invoked; it mirrors no source
  field and is used only to state attempt-count properties.
-/

namespace BatchSDK

/-- Does the character list start with the pattern? (helper for the model of
JavaScript `String.prototype.includes`). -/
def charStartsWith : List Char → List Char → Bool
  | [], _ => true
  | _ :: _, [] => false
  | p :: ps, s :: ss => p == s && charStartsWith ps ss

/-- Does the character list contain the pattern as a contiguous run? -/
def charHasSub (pat : List Char) : List Char → Bool
  | [] => charStartsWith pat []
  | s :: ss => charStartsWith pat (s :: ss) || charHasSub pat ss

/-- Model of JavaScript `s.includes(pat)`. -/
def strIncludes (s pat : String) : Bool :=
  charHasSub pat.toList s.toList

/-- JS `x || d` for a `parseInt` result: `NaN` (`none`) and `0` are falsy. -/
def jsIntOr (v : Option Int) (d : Int) : Int :=
  match v with
  | none => d
  | some n => if n = 0 then d else n

/-- JS `s || d` for an optional string: `undefined` and `""` are falsy. -/
def jsStrOr (s : Option String) (d : String) : String :=
  match s with
  | none => d
  | some t => if t = "" then d else t

/-- `Document.processingStatus`: pending, processing, completed or failed. -/
inductive ProcessingStatus where
  | pending
  | processing
  | completed
  | failed
deriving DecidableEq, Repr

/-- Embedding of the `Document` entity (`src/domain/entities/documents.js`).
`isLocal`, `fileExists` and `filePathErrors` are the answers of the consumed
`FilePath` capability (`isLocalPath()`, `exists()`,
`validateForProcessing().errors`). -/
structure Document where
  id : String
  mimeType : String
  size : Option Int
  isLocal : Bool
  fileExists : Bool
  filePathErrors : List String
  batchSize : Int
  maxWorkers : Int
  maxRetries : Int
  maxRetryWaitTime : Int
  processingAttempts : Nat
  lastProcessingAttempt : Option Int
  processingStatus : ProcessingStatus
deriving DecidableEq, Repr

/-- Result shape of `Document.validate()`. -/
structure ValidationResult where
  isValid : Bool
  errors : List String
deriving DecidableEq, Repr

/-- `Document.validate()` (documents.js lines 226-271). The `!this.filePath`
check can never fire (the constructor always builds a `FilePath` object, which
is truthy), so it contributes no error. -/
def Document.validate (d : Document) : ValidationResult :=
  let errors : List String :=
    (if d.id = "" then ["Document ID is required"] else []) ++
    (if d.mimeType = "" then ["MIME type is required"] else []) ++
    (match d.size with
     | some s => if s < 0 then ["File size cannot be negative"] else []
     | none => []) ++
    (if d.batchSize ≤ 0 then ["Batch size must be greater than 0"] else []) ++
    (if d.maxWorkers ≤ 0 then ["Maximum workers must be greater than 0"] else []) ++
    (if d.maxRetries < 0 then ["Maximum retries cannot be negative"] else []) ++
    (if d.maxRetryWaitTime < 0 then ["Maximum retry wait time cannot be negative"] else []) ++
    d.filePathErrors
  { isValid := errors.isEmpty, errors := errors }

/-- Result shape of `Document.canBeProcessed()`; the human-readable `reason`
strings are elided, the machine `code` is kept verbatim. -/
structure ProcessCheck where
  canProcess : Bool
  code : String
deriving DecidableEq, Repr

/-- The `supportedTypes` list of `Document.canBeProcessed` (documents.js
lines 51-76). -/
def supportedMimeTypes : List String :=
  ["application/pdf",
   "image/jpeg", "image/png", "image/tiff", "image/bmp", "image/gif",
   "image/webp",
   "image/x-portable-pixmap", "image/x-portable-graymap",
   "image/x-portable-bitmap", "image/x-sun-raster", "image/x-cmu-raster",
   "image/jp2", "image/jpm", "image/mj2", "image/x-tga", "image/x-exr",
   "image/vnd.radiance", "image/x-pict"]

/-- `Document.canBeProcessed()` (documents.js lines 28-162), with the clock
read `Date.now()` passed as `now`. -/
def Document.canBeProcessed (d : Document) (now : Int) : ProcessCheck :=
  if d.isLocal && !d.fileExists then
    ⟨false, "FILE_NOT_FOUND"⟩
  else if d.isLocal &&
      (match d.size with
       | some s => decide (50 * 1024 * 1024 < s)
       | none => false) then
    ⟨false, "FILE_TOO_LARGE"⟩
  else if !(supportedMimeTypes.contains d.mimeType) then
    ⟨false, "UNSUPPORTED_FILE_TYPE"⟩
  else if d.processingStatus = .processing then
    ⟨false, "ALREADY_PROCESSING"⟩
  else if d.processingStatus = .completed then
    ⟨false, "ALREADY_COMPLETED"⟩
  else if d.maxRetries ≤ (d.processingAttempts : Int) then
    ⟨false, "MAX_RETRIES_EXCEEDED"⟩
  else if (match d.lastProcessingAttempt with
           | some t => decide (now - t < d.maxRetryWaitTime * 1000)
           | none => false) then
    ⟨false, "RATE_LIMITED"⟩
  else if d.batchSize ≤ 0 then
    ⟨false, "INVALID_BATCH_SIZE"⟩
  else if d.maxWorkers ≤ 0 then
    ⟨false, "INVALID_MAX_WORKERS"⟩
  else
    ⟨true, "READY_TO_PROCESS"⟩

/-- `Document.markAsProcessing()` (documents.js lines 167-171). -/
def Document.markAsProcessing (d : Document) (now : Int) : Document :=
  { d with
    processingStatus := .processing
    processingAttempts := d.processingAttempts + 1
    lastProcessingAttempt := some now }

/-- `Document.markAsCompleted()` (documents.js lines 176-178). -/
def Document.markAsCompleted (d : Document) : Document :=
  { d with processingStatus := .completed }

/-- `Document.markAsFailed()` (documents.js lines 183-185). -/
def Document.markAsFailed (d : Document) : Document :=
  { d with processingStatus := .failed }

/-- State of a `BatchProcessingService` instance. -/
structure Service where
  batchSize : Int
  maxWorkers : Int
  maxRetries : Int
  maxRetryWaitTime : Int
  retryLoggingStyle : String
  activeWorkers : Int
  processingQueue : List Document
  completedDocuments : List Document
  failedDocuments : List Document
deriving DecidableEq, Repr

/-- The environment variables read by the `BatchProcessingService`
constructor; integral entries hold the `parseInt` result (`none` for unset or
unparsable, i.e. `NaN`). -/
structure Env where
  batchSizeVar : Option Int
  maxWorkersVar : Option Int
  maxRetriesVar : Option Int
  maxRetryWaitTimeVar : Option Int
  retryLoggingStyleVar : Option String
deriving DecidableEq, Repr

/-- The `BatchProcessingService` constructor (batch_processing.service.js
lines 3-17).  It performs no validation and cannot throw: each configuration
field is `parseInt(env…) || default`. -/
def mkBatchProcessingService (env : Env) : Service :=
  { batchSize := jsIntOr env.batchSizeVar 4
    maxWorkers := jsIntOr env.maxWorkersVar 2
    maxRetries := jsIntOr env.maxRetriesVar 80
    maxRetryWaitTime := jsIntOr env.maxRetryWaitTimeVar 30
    retryLoggingStyle := jsStrOr env.retryLoggingStyleVar "log_msg"
    activeWorkers := 0
    processingQueue := []
    completedDocuments := []
    failedDocuments := [] }

/-- Result shape of `BatchProcessingService.canAddToBatch`; `reason` strings
are elided, the machine `code` is kept verbatim. -/
structure AdmitCheck where
  canAdd : Bool
  code : String
deriving DecidableEq, Repr

/-- `BatchProcessingService.canAddToBatch(document)` (batch_processing.service.js
lines 22-72): document validation, then `canBeProcessed`, then capacity, then
duplicate id. -/
def canAddToBatch (s : Service) (d : Document) (now : Int) : AdmitCheck :=
  let validation := d.validate
  if !validation.isValid then
    ⟨false, "VALIDATION_FAILED"⟩
  else
    let processingCheck := d.canBeProcessed now
    if !processingCheck.canProcess then
      ⟨false, processingCheck.code⟩
    else if s.batchSize ≤ (s.processingQueue.length : Int) then
      ⟨false, "BATCH_FULL"⟩
    else if s.processingQueue.any (fun doc => doc.id == d.id) then
      ⟨false, "ALREADY_IN_QUEUE"⟩
    else
      ⟨true, "READY_TO_ADD"⟩

/-- `BatchProcessingService.calculateEstimatedWaitTime()`
(batch_processing.service.js lines 248-254): `Math.ceil(qLen * 5 / maxWorkers)`.
`none` models the non-finite JS result when `maxWorkers` is `0`
(division by zero yields `Infinity`). -/
def calculateEstimatedWaitTime (qLen : Nat) (maxWorkers : Int) : Option Int :=
  if maxWorkers = 0 then none
  else some ⌈((qLen * 5 : ℚ)) / (maxWorkers : ℚ)⌉

/-- The success payload of `addToBatch` (batch_processing.service.js
lines 90-95). -/
structure AddOk where
  documentId : String
  queuePosition : Nat
  estimatedWaitTime : Option Int
deriving DecidableEq, Repr

/-- `BatchProcessingService.addToBatch(document)` (batch_processing.service.js
lines 77-96).  The JS method throws an `Error` wrapping `canAdd.reason` on
rejection; the embedding returns the rejecting `AdmitCheck` on the `error`
side and threads the (un)changed service state explicitly. -/
def addToBatch (s : Service) (d : Document) (now : Int) :
    Except AdmitCheck AddOk × Service :=
  let canAdd := canAddToBatch s d now
  if canAdd.canAdd then
    let s1 := { s with processingQueue := s.processingQueue ++ [d] }
    (.ok { documentId := d.id
           queuePosition := s1.processingQueue.length
           estimatedWaitTime :=
             calculateEstimatedWaitTime s1.processingQueue.length s.maxWorkers },
     s1)
  else
    (.error canAdd, s)

/-- `BatchProcessingService.shouldRetry(error, attempt)`
(batch_processing.service.js lines 216-232): message-text classification, then
`attempt < maxRetries`. -/
def shouldRetry (maxRetries : Int) (msg : String) (attempt : Int) : Bool :=
  if strIncludes msg "VALIDATION_FAILED" ||
     strIncludes msg "UNSUPPORTED_FILE_TYPE" ||
     strIncludes msg "FILE_TOO_LARGE" then
    false
  else if strIncludes msg "Invalid API key" || strIncludes msg "401" then
    false
  else
    decide (attempt < maxRetries)

/-- The non-retryable classification of `shouldRetry` collected into one
predicate (true iff the message matches one of the five substrings that stop
the retry loop regardless of remaining attempts). -/
def nonRetryableMessage (msg : String) : Bool :=
  strIncludes msg "VALIDATION_FAILED" ||
  strIncludes msg "UNSUPPORTED_FILE_TYPE" ||
  strIncludes msg "FILE_TOO_LARGE" ||
  strIncludes msg "Invalid API key" ||
  strIncludes msg "401"

/-- Return value of `processDocument` (batch_processing.service.js lines
186 and 206-210).  The JS success object `{success:true, result}` carries no
attempt count; the failure object carries `attempts: this.maxRetries`.
`attemptsMade` is a ghost counter of extraction invocations (not a source
field). -/
inductive PDResult (α : Type) where
  | ok (result : α) (attemptsMade : Nat)
  | fail (error : String) (attempts : Int) (attemptsMade : Nat)
deriving DecidableEq, Repr

/-- The retry loop of `processDocument` (batch_processing.service.js lines
181-204).  `fuel` counts the remaining iterations of
`for (attempt = 1; attempt <= maxRetries; attempt++)`; the backoff sleep
between attempts does not affect the computed outcome and is elided. -/
def pdLoop (maxRetries : Int) (extract : Int → Except String α)
    (lastError : Option String) (attempt : Int) (made : Nat) :
    Nat → PDResult α
  | 0 => .fail (jsStrOr lastError "Max retries exceeded") maxRetries made
  | fuel + 1 =>
    match extract attempt with
    | .ok r => .ok r (made + 1)
    | .error msg =>
      if shouldRetry maxRetries msg attempt then
        pdLoop maxRetries extract (some msg) (attempt + 1) (made + 1) fuel
      else
        .fail (jsStrOr (some msg) "Max retries exceeded") maxRetries (made + 1)

/-- `BatchProcessingService.processDocument(document, extractionFunction)`
(batch_processing.service.js lines 178-211), with the extraction call for the
document abstracted as an attempt-indexed family. -/
def processDocument (maxRetries : Int) (extract : Int → Except String α) :
    PDResult α :=
  pdLoop maxRetries extract none 1 0 maxRetries.toNat

/-- `BatchProcessingService.chunkArray(array, chunkSize)`
(batch_processing.service.js lines 306-312).  For `chunkSize = 0` the JS loop
`for (i = 0; i < len; i += chunkSize)` never terminates on a non-empty array;
the embedding returns `[]` in that (never exercised) case and all theorems
about batch processing assume `0 < maxWorkers`. -/
def chunkArray : List α → Nat → List (List α)
  | [], _ => []
  | _ :: _, 0 => []
  | a :: as, k + 1 => ((a :: as).take (k + 1)) :: chunkArray (as.drop k) (k + 1)
termination_by l _ => l.length
decreasing_by
  simp only [List.length_cons, List.length_drop]
  omega

/-- `BatchProcessingService.calculateRetryWaitTime(attempt)`
(batch_processing.service.js lines 237-243), with the `Math.random() * 1000`
jitter passed explicitly. -/
def calculateRetryWaitTime (maxRetryWaitTime : Int) (attempt : Nat) (jitter : ℚ) : ℚ :=
  let baseWaitTime : Int := min maxRetryWaitTime 30
  let exponentialWait : ℚ := 2 ^ (attempt - 1) * 1000
  min (exponentialWait + jitter) ((baseWaitTime : ℚ) * 1000)

/-- The backoff wait as the specification words it: cap at
`min(maxRetryWaitSeconds, 30)` seconds, wait
`min(2^(n-1)×1000 + jitter, cap×1000)` milliseconds. -/
def specBackoffWait (maxRetryWaitSeconds : Int) (n : Nat) (jitter : ℚ) : ℚ :=
  let cap : ℚ := min (maxRetryWaitSeconds : ℚ) 30
  min (2 ^ (n - 1) * 1000 + jitter) (cap * 1000)

/-- The summary returned by `processBatch` (batch_processing.service.js lines
103-108 and 112-117).  `errors = none` models the early empty-queue return,
which has a `message` field and no `errors` field; each error entry is the
pair `(documentId, error)`. -/
structure PBResult where
  processed : Nat
  completed : Nat
  failed : Nat
  errors : Option (List (String × String))
  message : Option String
deriving DecidableEq, Repr

/-- Accumulator for the per-document bookkeeping of `processBatch`: the
mutated service plus the `results` counters and error list under
construction. -/
structure BatchRun where
  svc : Service
  completed : Nat
  failed : Nat
  errors : List (String × String)
deriving DecidableEq, Repr

/-- The trip of one document through the body of the chunk loop
(batch_processing.service.js lines 129-159): mark processing, run the retry
policy, then record the terminal outcome.  `processDocument` catches every
extraction error, so the JS `catch` branch is unreachable and not modelled. -/
def processOne (extract : Document → Int → Except String α) (now : Int)
    (acc : BatchRun) (d : Document) : BatchRun :=
  let d1 := d.markAsProcessing now
  match processDocument acc.svc.maxRetries (extract d1) with
  | .ok _ _ =>
    { acc with
      svc := { acc.svc with
               completedDocuments := acc.svc.completedDocuments ++ [d1.markAsCompleted] }
      completed := acc.completed + 1 }
  | .fail err _ _ =>
    { acc with
      svc := { acc.svc with
               failedDocuments := acc.svc.failedDocuments ++ [d1.markAsFailed] }
      failed := acc.failed + 1
      errors := acc.errors ++ [(d1.id, err)] }

/-- `BatchProcessingService.processBatch(extractionFunction)`
(batch_processing.service.js lines 101-173): early return on an empty queue;
otherwise withdraw `splice(0, batchSize)` from the head, chunk by
`maxWorkers`, and process chunk after chunk (the in-chunk concurrency is
modelled as a fold in chunk order; see the header comment). -/
def processBatch (s : Service) (extract : Document → Int → Except String α)
    (now : Int) : PBResult × Service :=
  if s.processingQueue = [] then
    ({ processed := 0, completed := 0, failed := 0, errors := none
       message := some "No documents in queue to process" }, s)
  else
    let batchToProcess := s.processingQueue.take s.batchSize.toNat
    let s1 := { s with processingQueue := s.processingQueue.drop s.batchSize.toNat }
    let chunks := chunkArray batchToProcess s.maxWorkers.toNat
    let run := chunks.foldl (fun acc chunk => chunk.foldl (processOne extract now) acc)
      { svc := s1, completed := 0, failed := 0, errors := [] }
    ({ processed := batchToProcess.length
       completed := run.completed
       failed := run.failed
       errors := some run.errors
       message := none }, run.svc)

/-- The bookkeeping fold of `processBatch` over the withdrawn batch, written
as one name: the accumulated service state, counters and error list after
every chunk has been processed. -/
def pbRun (s : Service) (extract : Document → Int → Except String α) (now : Int) :
    BatchRun :=
  (s.processingQueue.take s.batchSize.toNat).foldl (processOne extract now)
    { svc := { s with processingQueue := s.processingQueue.drop s.batchSize.toNat }
      completed := 0, failed := 0, errors := [] }

/-- `successRate` of the first `DocumentAIService.getProcessingStats` variant
(application service, lines 583-600 of the concatenated sources):
`successful / (successful + failed) * 100` with no zero guard — `none` models
the JS `NaN` produced by `0 / 0`. -/
def getProcessingStatsSuccessRateV1 (successful failed : Nat) : Option ℚ :=
  if successful + failed = 0 then none
  else some ((successful : ℚ) / ((successful : ℚ) + (failed : ℚ)) * 100)

/-- `successRate` of the second `DocumentAIService.getProcessingStats` variant
(lines 915-940): `totalProcessed > 0 ? (successful / totalProcessed) * 100 : 0`. -/
def getProcessingStatsSuccessRateV2 (successful failed : Nat) : ℚ :=
  if 0 < successful + failed then
    ((successful : ℚ) / ((successful : ℚ) + (failed : ℚ))) * 100
  else 0

/-- Iterated admission: enqueue the documents one after the other through
`addToBatch`, failing as soon as one admission is rejected. -/
def admitAll (s : Service) (now : Int) : List Document → Option Service
  | [] => some s
  | d :: ds =>
    match addToBatch s d now with
    | (.ok _, s1) => admitAll s1 now ds
    | (.error _, _) => none

/-- A concrete valid, processable document (pdf, small, pending). -/
def sampleDoc : Document :=
  { id := "doc1", mimeType := "application/pdf", size := some 100
    isLocal := true, fileExists := true, filePathErrors := []
    batchSize := 4, maxWorkers := 2, maxRetries := 80, maxRetryWaitTime := 30
    processingAttempts := 0, lastProcessingAttempt := none
    processingStatus := .pending }

/-- A second valid document with a distinct id. -/
def sampleDoc2 : Document := { sampleDoc with id := "doc2" }

/-- A third valid document with a distinct id. -/
def sampleDoc3 : Document := { sampleDoc with id := "doc3" }

/-- `sampleDoc` after reaching the terminal status `failed`. -/
def sampleFailedDoc : Document := { sampleDoc with processingStatus := .failed }

/-- `sampleDoc` after reaching the terminal status `completed`. -/
def sampleCompletedDoc : Document := { sampleDoc with processingStatus := .completed }

/-- The service constructed with no environment overrides
(`batchSize = 4`, `maxWorkers = 2`, `maxRetries = 80`, `maxRetryWaitTime = 30`). -/
def defaultService : Service :=
  mkBatchProcessingService ⟨none, none, none, none, none⟩

/-- The default service with a capacity of two. -/
def serviceCap2 : Service := { defaultService with batchSize := 2 }

/-- The default service with one pending document already enqueued. -/
def serviceQueued1 : Service := { defaultService with processingQueue := [sampleDoc] }

/-! ## Helper lemmas about the retry policy -/

/-- `shouldRetry` factored through the non-retryable message classification. -/
theorem shouldRetry_eq (maxRetries : Int) (msg : String) (attempt : Int) :
    shouldRetry maxRetries msg attempt =
      (!nonRetryableMessage msg && decide (attempt < maxRetries)) := by
  unfold shouldRetry nonRetryableMessage
  cases strIncludes msg "VALIDATION_FAILED" <;>
    cases strIncludes msg "UNSUPPORTED_FILE_TYPE" <;>
    cases strIncludes msg "FILE_TOO_LARGE" <;>
    cases strIncludes msg "Invalid API key" <;>
    cases strIncludes msg "401" <;> simp

/-- Every failure outcome of the retry loop carries `attempts = maxRetries`:
the `attempts` field of the returned object is the configured maximum, not a
count of performed attempts. -/
theorem pdLoop_fail_attempts (maxRetries : Int) (ext : Int → Except String α) :
    ∀ (fuel : Nat) (attempt : Int) (made : Nat) (le : Option String)
      (e : String) (a : Int) (m : Nat),
      pdLoop maxRetries ext le attempt made fuel = .fail e a m → a = maxRetries := by
  intro fuel
  induction fuel with
  | zero =>
    intro attempt made le e a m h
    simp only [pdLoop, PDResult.fail.injEq] at h
    exact h.2.1.symm
  | succ f ih =>
    intro attempt made le e a m h
    cases hx : ext attempt with
    | ok r => simp [pdLoop, hx] at h
    | error msg =>
      simp only [pdLoop, hx] at h
      by_cases hr : shouldRetry maxRetries msg attempt = true
      · rw [if_pos hr] at h
        exact ih (attempt + 1) (made + 1) (some msg) e a m h
      · rw [if_neg hr] at h
        simp only [PDResult.fail.injEq] at h
        exact h.2.1.symm

/-- A non-retryable classification stops `processDocument` after exactly one
extraction invocation, with the error recorded as the outcome. -/
theorem processDocument_nonretryable (maxRetries : Int) (msg : String)
    (ext : Int → Except String α) (hmr : 1 ≤ maxRetries)
    (hnr : nonRetryableMessage msg = true) (hne : msg ≠ "")
    (hext : ∀ n, ext n = .error msg) :
    processDocument maxRetries ext = .fail msg maxRetries 1 := by
  obtain ⟨f, hf⟩ : ∃ f, maxRetries.toNat = f + 1 := ⟨maxRetries.toNat - 1, by omega⟩
  unfold processDocument
  rw [hf]
  simp only [pdLoop, hext 1, shouldRetry_eq, hnr, Bool.not_true, Bool.false_and,
    Bool.false_eq_true, if_false, jsStrOr, if_neg hne]

/-- A retryable error on every attempt drives the loop through all its
remaining fuel: starting at `attempt` with `attempt + fuel = maxRetries + 1`,
the loop performs exactly `fuel` further extraction invocations and fails with
the last error. -/
theorem pdLoop_retryable (maxRetries : Int) (msg : String)
    (ext : Int → Except String α) (hnr : nonRetryableMessage msg = false)
    (hne : msg ≠ "") (hext : ∀ n, ext n = .error msg) :
    ∀ (fuel : Nat) (attempt : Int) (made : Nat) (le : Option String),
      1 ≤ fuel → attempt + fuel = maxRetries + 1 →
      pdLoop maxRetries ext le attempt made fuel = .fail msg maxRetries (made + fuel) := by
  intro fuel
  induction fuel with
  | zero => intro attempt made le h1 _; omega
  | succ f ih =>
    intro attempt made le _ hsum
    simp only [pdLoop, hext attempt, shouldRetry_eq, hnr, Bool.not_false, Bool.true_and]
    rcases Nat.eq_zero_or_pos f with hf | hf
    · subst hf
      rw [if_neg (by simp only [decide_eq_true_eq]; omega)]
      simp only [jsStrOr, if_neg hne]
    · rw [if_pos (by simp only [decide_eq_true_eq]; omega)]
      rw [ih (attempt + 1) (made + 1) (some msg) hf (by omega)]
      have hm : made + 1 + f = made + (f + 1) := by omega
      rw [hm]

/-- `processDocument` under a permanently retryable error: exactly
`maxRetries` extraction invocations (for a positive `maxRetries`). -/
theorem processDocument_retryable_exhaust (maxRetries : Int) (msg : String)
    (ext : Int → Except String α) (hmr : 1 ≤ maxRetries)
    (hnr : nonRetryableMessage msg = false) (hne : msg ≠ "")
    (hext : ∀ n, ext n = .error msg) :
    processDocument maxRetries ext = .fail msg maxRetries maxRetries.toNat := by
  unfold processDocument
  rw [pdLoop_retryable maxRetries msg ext hnr hne hext maxRetries.toNat 1 0 none
    (by omega) (by omega)]
  norm_num

/-! ## Claim C1: the attempt count carried by the Outcome -/

/-- C1 (counterexample): with `maxRetries = 5` and an extraction that always
raises a non-retryable `401` error, the retry policy performs exactly one
extraction invocation, yet the returned failure outcome reports
`attempts = 5`; the outcome does not carry the number of extract invocations
actually performed. -/
theorem C1_counterexample :
    processDocument 5 (fun _ => (.error "401" : Except String Unit)) =
      .fail "401" 5 1 ∧ (5 : Int) ≠ ((1 : Nat) : Int) := by
  decide

/-- C1 (amended): every failure outcome of the retry loop reports
`attempts = maxRetries` — the configured maximum, regardless of how many
extract invocations were actually performed — and a success outcome carries
the raw result with no attempt count at all. -/
theorem C1_fail_attempts_field_is_maxRetries (maxRetries : Int)
    (ext : Int → Except String α) (e : String) (a : Int) (m : Nat)
    (h : processDocument maxRetries ext = .fail e a m) : a = maxRetries :=
  pdLoop_fail_attempts maxRetries ext maxRetries.toNat 1 0 none e a m h

/-- Witness for C1: the amended theorem applied to a concrete always-failing
extraction with `maxRetries = 5`. -/
theorem C1_witness :
    processDocument 5 (fun _ => (.error "NetworkError" : Except String Unit)) =
      .fail "NetworkError" 5 5 ∧ (5 : Int) = 5 :=
  ⟨by decide,
   C1_fail_attempts_field_is_maxRetries 5
     (fun _ => (.error "NetworkError" : Except String Unit)) "NetworkError" 5 5
     (by decide)⟩

/-! ## Claim C6: retryable failures exhaust exactly maxRetries attempts -/

/-- C6 (counterexample): with `maxRetries = 0` the loop
`for (attempt = 1; attempt <= maxRetries; ...)` never runs, so a task whose
extraction always raises a retryable network error is attempted zero times —
not the "minimum of one attempt" the claim states — and the outcome reports
the synthetic `Max retries exceeded` error. -/
theorem C6_counterexample :
    processDocument 0 (fun _ => (.error "NetworkError" : Except String Unit)) =
      .fail "Max retries exceeded" 0 0 := by
  decide

/-- C6 (amended): for every `maxRetries ≥ 1`, a task whose extraction always
raises a retryable error (a non-empty message matching none of the
non-retryable patterns) is attempted exactly `maxRetries` times — at least
once — before the outcome reports failure; for `maxRetries ≤ 0` no attempt is
made. -/
theorem C6_retryable_exhausts_maxRetries (maxRetries : Int) (msg : String)
    (ext : Int → Except String α) (hmr : 1 ≤ maxRetries) (hne : msg ≠ "")
    (hnr : nonRetryableMessage msg = false) (hext : ∀ n, ext n = .error msg) :
    processDocument maxRetries ext = .fail msg maxRetries maxRetries.toNat ∧
    1 ≤ maxRetries.toNat :=
  ⟨processDocument_retryable_exhaust maxRetries msg ext hmr hnr hne hext, by omega⟩

/-- Witness for C6: `maxRetries = 3` and a permanent `NetworkError` give
exactly three attempts. -/
theorem C6_witness :
    processDocument 3 (fun _ => (.error "NetworkError" : Except String Unit)) =
      .fail "NetworkError" 3 (Int.toNat 3) ∧ 1 ≤ Int.toNat 3 :=
  C6_retryable_exhausts_maxRetries 3 "NetworkError"
    (fun _ => (.error "NetworkError" : Except String Unit))
    (by norm_num) (by decide) (by decide) (fun _ => rfl)

/-! ## Claim C7: the backoff formula -/

/-- C7: for every attempt `n ≥ 1` and jitter `j ∈ [0, 1000)` milliseconds, the
computed backoff wait equals `min(2^(n-1)·1000 + j, cap·1000)` with
`cap = min(maxRetryWaitSeconds, 30)` seconds, and consequently never exceeds
the cap. -/
theorem C7_backoff_formula (maxRetryWaitTime : Int) (n : Nat) (j : ℚ)
    (hn : 1 ≤ n) (hj0 : 0 ≤ j) (hj1 : j < 1000) :
    calculateRetryWaitTime maxRetryWaitTime n j = specBackoffWait maxRetryWaitTime n j ∧
    calculateRetryWaitTime maxRetryWaitTime n j ≤ min (maxRetryWaitTime : ℚ) 30 * 1000 := by
  unfold calculateRetryWaitTime specBackoffWait
  constructor
  · push_cast
    ring_nf
  · calc min ((2 : ℚ) ^ (n - 1) * 1000 + j) (((min maxRetryWaitTime 30 : Int) : ℚ) * 1000)
        ≤ ((min maxRetryWaitTime 30 : Int) : ℚ) * 1000 := min_le_right _ _
      _ = min (maxRetryWaitTime : ℚ) 30 * 1000 := by push_cast; ring

/-- Witness for C7: attempt 3 with jitter 1/2 ms and `maxRetryWaitSeconds = 60`. -/
theorem C7_witness :
    calculateRetryWaitTime 60 3 (1 / 2) = specBackoffWait 60 3 (1 / 2) ∧
    calculateRetryWaitTime 60 3 (1 / 2) ≤ min ((60 : Int) : ℚ) 30 * 1000 :=
  C7_backoff_formula 60 3 (1 / 2) (by norm_num) (by norm_num) (by norm_num)

/-! ## Claim C5: Unauthorized errors are attempted exactly once -/

/-- C5: for every `maxRetries ≥ 1`, a task whose extract call always raises an
authentication/authorization error (message containing `401` or
`Invalid API key`) is attempted exactly once — the non-retryable
classification stops the loop regardless of remaining attempts — and through
`processBatch` the task ends with status `failed` in the failed collection. -/
theorem C5_unauthorized_attempted_once (maxRetries : Int) (msg : String)
    (s : Service) (d : Document) (ext : Document → Int → Except String α) (now : Int)
    (hmr : 1 ≤ maxRetries)
    (hmsg : strIncludes msg "401" = true ∨ strIncludes msg "Invalid API key" = true)
    (hext : ∀ d' n, ext d' n = .error msg)
    (hq : s.processingQueue = [d]) (hsmr : s.maxRetries = maxRetries)
    (hb : 0 < s.batchSize) (hw : 0 < s.maxWorkers) :
    processDocument maxRetries (ext d) = .fail msg maxRetries 1 ∧
    (processBatch s ext now).1.failed = 1 ∧
    (processBatch s ext now).1.completed = 0 ∧
    ∃ d1, (processBatch s ext now).2.failedDocuments = s.failedDocuments ++ [d1] ∧
      d1.processingStatus = .failed ∧ d1.id = d.id := by
  have hne : msg ≠ "" := by
    rintro rfl
    rcases hmsg with h | h <;> revert h <;> decide
  have hnr : nonRetryableMessage msg = true := by
    unfold nonRetryableMessage
    rcases hmsg with h | h <;> simp [h]
  have hpd : ∀ ext1 : Int → Except String α, (∀ n, ext1 n = .error msg) →
      processDocument maxRetries ext1 = .fail msg maxRetries 1 := fun ext1 hx =>
    processDocument_nonretryable maxRetries msg ext1 hmr hnr hne hx
  refine ⟨hpd (ext d) (fun n => hext d n), ?_⟩
  obtain ⟨b, hbn⟩ : ∃ b, s.batchSize.toNat = b + 1 := ⟨s.batchSize.toNat - 1, by omega⟩
  obtain ⟨w, hwn⟩ : ∃ w, s.maxWorkers.toNat = w + 1 := ⟨s.maxWorkers.toNat - 1, by omega⟩
  have hq' : ¬ s.processingQueue = [] := by rw [hq]; simp
  simp only [processBatch, if_neg hq', hq, hbn, hwn, List.take_succ_cons,
    List.take_nil, List.drop_succ_cons, List.drop_nil, chunkArray, List.foldl,
    processOne, hsmr]
  rw [hpd (ext (d.markAsProcessing now)) (fun n => hext _ n)]
  refine ⟨rfl, rfl, (d.markAsProcessing now).markAsFailed, rfl, rfl, rfl⟩

/-- Witness for C5: the default service (maxRetries = 80) with one queued
document and an extraction that always raises `401`. -/
theorem C5_witness :
    processDocument 80 (fun _ => (.error "401" : Except String Unit)) =
      .fail "401" 80 1 ∧
    (processBatch serviceQueued1 (fun _ _ => (.error "401" : Except String Unit)) 0).1.failed = 1 ∧
    (processBatch serviceQueued1 (fun _ _ => (.error "401" : Except String Unit)) 0).1.completed = 0 ∧
    ∃ d1, (processBatch serviceQueued1 (fun _ _ => (.error "401" : Except String Unit)) 0).2.failedDocuments =
        serviceQueued1.failedDocuments ++ [d1] ∧
      d1.processingStatus = .failed ∧ d1.id = sampleDoc.id :=
  C5_unauthorized_attempted_once 80 "401" serviceQueued1 sampleDoc
    (fun _ _ => (.error "401" : Except String Unit)) 0
    (by norm_num) (Or.inl (by decide)) (fun _ _ => rfl) rfl rfl (by decide) (by decide)

/-! ## Claim C2: construction-time configuration validation -/

/-- `jsIntOr` never returns zero when its default is non-zero: a zero (or
unparsable) environment value is replaced by the default. -/
theorem jsIntOr_ne_zero (v : Option Int) (d : Int) (hd : d ≠ 0) : jsIntOr v d ≠ 0 := by
  unfold jsIntOr
  cases v with
  | none => exact hd
  | some n =>
    show (if n = 0 then d else n) ≠ 0
    by_cases h : n = 0
    · rw [if_pos h]; exact hd
    · rw [if_neg h]; exact h

/-- C2 (counterexample): with `BATCH_SIZE=-1` and `MAX_WORKERS=-2` in the
environment, the constructor succeeds (it is a total function that raises
nothing) and yields an effective configuration with `batchSize = -1 ≤ 0` and
`maxWorkers = -2 ≤ 0` — no fatal `ConfigurationError` exists at construction
time. -/
theorem C2_counterexample :
    (mkBatchProcessingService ⟨some (-1), some (-2), none, none, none⟩).batchSize = -1 ∧
    (mkBatchProcessingService ⟨some (-1), some (-2), none, none, none⟩).batchSize ≤ 0 ∧
    (mkBatchProcessingService ⟨some (-1), some (-2), none, none, none⟩).maxWorkers = -2 := by
  decide

/-- C2 (amended): construction never fails for any environment; a zero or
unparsable value is silently replaced by its default (4, 2, 80, 30), so the
effective `batchSize` and `maxWorkers` are never zero — but negative values
pass through unvalidated, and the initial processing state is empty. -/
theorem C2_construction_total_defaults (env : Env) :
    (mkBatchProcessingService env).batchSize ≠ 0 ∧
    (mkBatchProcessingService env).maxWorkers ≠ 0 ∧
    (mkBatchProcessingService env).maxRetries ≠ 0 ∧
    (mkBatchProcessingService env).maxRetryWaitTime ≠ 0 ∧
    (mkBatchProcessingService env).processingQueue = [] :=
  ⟨jsIntOr_ne_zero _ 4 (by norm_num), jsIntOr_ne_zero _ 2 (by norm_num),
   jsIntOr_ne_zero _ 80 (by norm_num), jsIntOr_ne_zero _ 30 (by norm_num), rfl⟩

/-! ## Claim C4: the reported success rate -/

/-- C4 (counterexample): with one completed and one failed outcome the
reported `successRate` is `50`, not `C/(C+F) = 1/2` — the code reports a
percentage — and the unguarded first variant yields `NaN` (modelled `none`)
at `C+F = 0`, not `0`. -/
theorem C4_counterexample :
    getProcessingStatsSuccessRateV2 1 1 = 50 ∧
    ((1 : ℚ) / ((1 : ℚ) + 1) ≠ 50) ∧
    getProcessingStatsSuccessRateV1 0 0 = none := by
  refine ⟨?_, by norm_num, by simp [getProcessingStatsSuccessRateV1]⟩
  norm_num [getProcessingStatsSuccessRateV2]

/-- C4 (amended): after recording C completed and F failed outcomes the
reported `successRate` equals `C/(C+F) · 100`; when `C+F = 0` the guarded
variant reports `0` while the unguarded variant reports `NaN` (modelled as
`none`). -/
theorem C4_success_rate_is_percentage (c f : Nat) :
    (0 < c + f →
      getProcessingStatsSuccessRateV2 c f = (c : ℚ) / ((c : ℚ) + (f : ℚ)) * 100 ∧
      getProcessingStatsSuccessRateV1 c f = some ((c : ℚ) / ((c : ℚ) + (f : ℚ)) * 100)) ∧
    (c + f = 0 →
      getProcessingStatsSuccessRateV2 c f = 0 ∧
      getProcessingStatsSuccessRateV1 c f = none) := by
  constructor
  · intro h
    refine ⟨by simp [getProcessingStatsSuccessRateV2, h], ?_⟩
    have h0 : ¬ c + f = 0 := by omega
    simp [getProcessingStatsSuccessRateV1, h0]
  · intro h
    have h0 : ¬ 0 < c + f := by omega
    exact ⟨by simp [getProcessingStatsSuccessRateV2, h0],
           by simp [getProcessingStatsSuccessRateV1, h]⟩

/-- Witness for C4: three completed and one failed outcome give a 75% success
rate in both variants. -/
theorem C4_witness :
    getProcessingStatsSuccessRateV2 3 1 =
      ((3 : Nat) : ℚ) / (((3 : Nat) : ℚ) + ((1 : Nat) : ℚ)) * 100 ∧
    getProcessingStatsSuccessRateV1 3 1 =
      some (((3 : Nat) : ℚ) / (((3 : Nat) : ℚ) + ((1 : Nat) : ℚ)) * 100) :=
  (C4_success_rate_is_percentage 3 1).1 (by norm_num)

/-! ## Claim C8: terminal statuses and re-admission -/

/-- A document whose status is `completed` or `processing` is always rejected
by `canBeProcessed` (the chain reaches the status checks only when the
earlier file checks pass, and every earlier rejection also answers false). -/
theorem canBeProcessed_terminal (d : Document) (now : Int)
    (h : d.processingStatus = .completed ∨ d.processingStatus = .processing) :
    (d.canBeProcessed now).canProcess = false := by
  unfold Document.canBeProcessed
  rcases h with h | h <;>
    simp [h, apply_ite ProcessCheck.canProcess]

/-- C8 (counterexample): a `failed` document (attempts below `maxRetries`, no
pending rate limit) is re-admitted by the gate — `canAddToBatch` answers
`READY_TO_ADD` — and dispatching it through `markAsProcessing` moves its
status from the terminal `failed` back to `processing`. -/
theorem C8_counterexample :
    sampleFailedDoc.processingStatus = .failed ∧
    (canAddToBatch defaultService sampleFailedDoc 0).canAdd = true ∧
    (canAddToBatch defaultService sampleFailedDoc 0).code = "READY_TO_ADD" ∧
    (sampleFailedDoc.markAsProcessing 0).processingStatus = .processing := by
  decide

/-- C8 (amended): `completed` is terminal with respect to re-admission — for
every service state, a document with status `completed` (or currently
`processing`) is rejected by `canAddToBatch` — but `failed` is not: a failed
document with remaining retry budget is re-admissible, and the unguarded
`markAsProcessing` then regresses its status to `processing`, so reprocessing
a failed task does not require a fresh task. -/
theorem C8_completed_never_readmitted (s : Service) (d : Document) (now : Int)
    (h : d.processingStatus = .completed ∨ d.processingStatus = .processing) :
    (canAddToBatch s d now).canAdd = false := by
  cases hv : d.validate.isValid with
  | false => simp [canAddToBatch, hv]
  | true => simp [canAddToBatch, hv, canBeProcessed_terminal d now h]

/-- Witness for C8: the completed sample document is rejected by the default
admission gate of the default service. -/
theorem C8_witness :
    (canAddToBatch defaultService sampleCompletedDoc 0).canAdd = false :=
  C8_completed_never_readmitted defaultService sampleCompletedDoc 0 (Or.inl (by decide))

/-! ## Helper lemmas about the admission gate -/

/-- The admission check succeeds exactly when the document passes the local
validity checks, the queue has capacity, and no queued document shares the
id. -/
theorem canAddToBatch_true_iff (s : Service) (d : Document) (now : Int) :
    (canAddToBatch s d now).canAdd = true ↔
      (d.validate.isValid = true ∧ (d.canBeProcessed now).canProcess = true ∧
       ¬ s.batchSize ≤ (s.processingQueue.length : Int) ∧
       s.processingQueue.any (fun q => q.id == d.id) = false) := by
  unfold canAddToBatch
  cases hv : d.validate.isValid with
  | false => simp [hv]
  | true =>
    cases hp : (d.canBeProcessed now).canProcess with
    | false => simp [hv, hp]
    | true =>
      by_cases hfull : s.batchSize ≤ (s.processingQueue.length : Int)
      · simp [hv, hp, hfull]
      · cases hd : s.processingQueue.any (fun q => q.id == d.id) with
        | false => simp [hv, hp, hfull, hd]
        | true => simp [hv, hp, hfull, hd]

/-- On rejection `addToBatch` raises (returns the rejecting check on the
error side) and leaves the service state untouched. -/
theorem addToBatch_reject (s : Service) (d : Document) (now : Int)
    (h : (canAddToBatch s d now).canAdd = false) :
    addToBatch s d now = (.error (canAddToBatch s d now), s) := by
  unfold addToBatch
  simp [h]

/-- On acceptance `addToBatch` appends the document to the queue and returns
the resulting queue position and the estimated wait. -/
theorem addToBatch_accept (s : Service) (d : Document) (now : Int)
    (h : (canAddToBatch s d now).canAdd = true) :
    addToBatch s d now =
      (.ok { documentId := d.id
             queuePosition := s.processingQueue.length + 1
             estimatedWaitTime :=
               calculateEstimatedWaitTime (s.processingQueue.length + 1) s.maxWorkers },
       { s with processingQueue := s.processingQueue ++ [d] }) := by
  unfold addToBatch
  simp [h]

/-- Sequential admission of a list of valid, processable, id-distinct
documents within capacity appends them all in order. -/
theorem admitAll_append (now : Int) :
    ∀ (ds : List Document) (s : Service),
      (∀ d ∈ ds, d.validate.isValid = true ∧ (d.canBeProcessed now).canProcess = true) →
      (ds.map Document.id).Nodup →
      (∀ d ∈ ds, ∀ q ∈ s.processingQueue, q.id ≠ d.id) →
      ((s.processingQueue.length : Int) + ds.length ≤ s.batchSize) →
      admitAll s now ds = some { s with processingQueue := s.processingQueue ++ ds } := by
  intro ds
  induction ds with
  | nil => intro s _ _ _ _; simp [admitAll]
  | cons d ds ih =>
    intro s hvp hnd hdisj hcap
    simp only [List.map_cons, List.nodup_cons] at hnd
    have hcan : (canAddToBatch s d now).canAdd = true := by
      rw [canAddToBatch_true_iff]
      refine ⟨(hvp d (by simp)).1, (hvp d (by simp)).2, by simp at hcap; omega, ?_⟩
      rw [List.any_eq_false]
      intro q hq
      simpa using hdisj d (by simp) q hq
    have hdisj1 : ∀ x ∈ ds, ∀ q ∈ s.processingQueue ++ [d], q.id ≠ x.id := by
      intro x hx q hq
      rcases List.mem_append.mp hq with hq | hq
      · exact hdisj x (by simp [hx]) q hq
      · have hqd : q = d := by simpa using hq
        subst hqd
        intro hid
        exact hnd.1 (by rw [hid]; exact List.mem_map_of_mem Document.id hx)
    have hcap1 : (((s.processingQueue ++ [d]).length : Int) + ds.length ≤ s.batchSize) := by
      simp only [List.length_append, List.length_cons, List.length_nil] at hcap ⊢
      push_cast at hcap ⊢
      omega
    unfold admitAll
    rw [addToBatch_accept s d now hcan]
    show admitAll { s with processingQueue := s.processingQueue ++ [d] } now ds = _
    rw [ih _ (fun x hx => hvp x (by simp [hx])) hnd.2 hdisj1 hcap1]
    simp

/-! ## Claim C3: the admission gate -/

/-- C3: admission succeeds exactly when the task passes the local validity
checks, the queue has spare capacity, and no queued task shares the id; on
rejection `addToBatch` raises the corresponding error and leaves the queue
unchanged; on acceptance it appends the task (insertion order preserved) and
returns the resulting queue position and an estimated wait.  In particular,
for `batchSize = B`, admitting `B` valid distinct tasks into an empty queue
succeeds and admitting a `B+1`-th valid task fails with `BATCH_FULL`. -/
theorem C3_admission_gate :
    (∀ (s : Service) (d : Document) (now : Int),
      ((canAddToBatch s d now).canAdd = true ↔
        (d.validate.isValid = true ∧ (d.canBeProcessed now).canProcess = true ∧
         ¬ s.batchSize ≤ (s.processingQueue.length : Int) ∧
         s.processingQueue.any (fun q => q.id == d.id) = false)) ∧
      ((canAddToBatch s d now).canAdd = false →
        addToBatch s d now = (.error (canAddToBatch s d now), s)) ∧
      ((canAddToBatch s d now).canAdd = true →
        addToBatch s d now =
          (.ok { documentId := d.id
                 queuePosition := s.processingQueue.length + 1
                 estimatedWaitTime :=
                   calculateEstimatedWaitTime (s.processingQueue.length + 1) s.maxWorkers },
           { s with processingQueue := s.processingQueue ++ [d] }))) ∧
    (∀ (s : Service) (ds : List Document) (dlast : Document) (now : Int),
      s.processingQueue = [] →
      s.batchSize = (ds.length : Int) →
      (∀ d ∈ ds, d.validate.isValid = true ∧ (d.canBeProcessed now).canProcess = true) →
      (ds.map Document.id).Nodup →
      dlast.validate.isValid = true →
      (dlast.canBeProcessed now).canProcess = true →
      ∃ s1, admitAll s now ds = some s1 ∧ s1.processingQueue = ds ∧
        (canAddToBatch s1 dlast now).canAdd = false ∧
        (canAddToBatch s1 dlast now).code = "BATCH_FULL") := by
  constructor
  · intro s d now
    exact ⟨canAddToBatch_true_iff s d now, addToBatch_reject s d now,
           addToBatch_accept s d now⟩
  · intro s ds dlast now hq hbs hvp hnd hv hp
    refine ⟨{ s with processingQueue := s.processingQueue ++ ds }, ?_, ?_, ?_⟩
    · exact admitAll_append now ds s hvp hnd (by simp [hq]) (by simp [hq, hbs])
    · simp [hq]
    · have hfull : s.batchSize ≤ (((s.processingQueue ++ ds).length : Nat) : Int) := by
        simp [hq, hbs]
      unfold canAddToBatch
      simp only [hv, hp, Bool.not_true, Bool.false_eq_true, if_false, if_pos hfull]
      simp

/-- Witness for C3: capacity two; `sampleDoc` is accepted into the empty
default queue, two distinct valid documents fill the capacity-2 service, and
a third valid document is rejected with `BATCH_FULL`; a completed document is
rejected without touching the queue. -/
theorem C3_witness :
    (addToBatch serviceCap2 sampleDoc 0 =
      (.ok { documentId := sampleDoc.id
             queuePosition := serviceCap2.processingQueue.length + 1
             estimatedWaitTime :=
               calculateEstimatedWaitTime (serviceCap2.processingQueue.length + 1)
                 serviceCap2.maxWorkers },
       { serviceCap2 with processingQueue := serviceCap2.processingQueue ++ [sampleDoc] })) ∧
    (addToBatch serviceCap2 sampleCompletedDoc 0 =
      (.error (canAddToBatch serviceCap2 sampleCompletedDoc 0), serviceCap2)) ∧
    (∃ s1, admitAll serviceCap2 0 [sampleDoc, sampleDoc2] = some s1 ∧
      s1.processingQueue = [sampleDoc, sampleDoc2] ∧
      (canAddToBatch s1 sampleDoc3 0).canAdd = false ∧
      (canAddToBatch s1 sampleDoc3 0).code = "BATCH_FULL") :=
  ⟨(C3_admission_gate.1 serviceCap2 sampleDoc 0).2.2 (by decide),
   (C3_admission_gate.1 serviceCap2 sampleCompletedDoc 0).2.1 (by decide),
   C3_admission_gate.2 serviceCap2 [sampleDoc, sampleDoc2] sampleDoc3 0
     rfl (by decide) (by decide) (by decide) (by decide) (by decide)⟩

/-! ## Helper lemmas about the wave scheduler -/

/-- Chunking by a positive size and concatenating restores the batch. -/
theorem chunkArray_flatten (k : Nat) :
    ∀ (n : Nat) (l : List α), l.length ≤ n → (chunkArray l (k + 1)).flatten = l := by
  intro n
  induction n with
  | zero =>
    intro l h
    have hl : l = [] := List.eq_nil_of_length_eq_zero (Nat.le_zero.mp h)
    subst hl
    simp [chunkArray]
  | succ n ih =>
    intro l h
    match l with
    | [] => simp [chunkArray]
    | a :: as =>
      simp only [chunkArray, List.flatten_cons]
      rw [ih (as.drop k) (by simp only [List.length_drop]; simp at h; omega)]
      rw [List.take_succ_cons]
      simp [List.take_append_drop]

/-- Per-batch bookkeeping invariant of the chunk-body fold: each document
contributes exactly one to `completed + failed`, and the error list grows in
lockstep with `failed`; the pending queue and the configuration inside the
accumulator are untouched. -/
theorem foldl_processOne_invariant (extract : Document → Int → Except String α) (now : Int) :
    ∀ (l : List Document) (a : BatchRun),
      ((l.foldl (processOne extract now) a).completed +
          (l.foldl (processOne extract now) a).failed
        = a.completed + a.failed + l.length) ∧
      ((l.foldl (processOne extract now) a).errors.length + a.failed
        = (l.foldl (processOne extract now) a).failed + a.errors.length) ∧
      (l.foldl (processOne extract now) a).svc.processingQueue
        = a.svc.processingQueue := by
  intro l
  induction l with
  | nil =>
    intro a
    refine ⟨by simp, ?_, rfl⟩
    simp only [List.foldl_nil]
    omega
  | cons d t ih =>
    intro a
    simp only [List.foldl_cons]
    have h := ih (processOne extract now a d)
    have hstep :
        ((processOne extract now a d).completed + (processOne extract now a d).failed
          = a.completed + a.failed + 1) ∧
        ((processOne extract now a d).errors.length + a.failed
          = (processOne extract now a d).failed + a.errors.length) ∧
        (processOne extract now a d).svc.processingQueue = a.svc.processingQueue := by
      unfold processOne
      refine ⟨?_, ?_, ?_⟩ <;>
        cases hpd : processDocument a.svc.maxRetries (extract (d.markAsProcessing now)) <;>
        simp [hpd] <;> omega
    refine ⟨?_, ?_, ?_⟩
    · have h1 := h.1
      have s1 := hstep.1
      simp only [List.length_cons]
      omega
    · have h2 := h.2.1
      have s1 := hstep.1
      have s2 := hstep.2.1
      omega
    · rw [h.2.2, hstep.2.2]

/-- On a non-empty queue `processBatch` is the fold of the chunk body over the
withdrawn batch (the chunk structure only bounds concurrency; concatenated
back together the chunks are the batch). -/
theorem processBatch_nonempty (s : Service) (extract : Document → Int → Except String α)
    (now : Int) (hq : ¬ s.processingQueue = []) (hw : 0 < s.maxWorkers) :
    processBatch s extract now =
      ({ processed := (s.processingQueue.take s.batchSize.toNat).length
         completed := (pbRun s extract now).completed
         failed := (pbRun s extract now).failed
         errors := some (pbRun s extract now).errors
         message := none }, (pbRun s extract now).svc) := by
  obtain ⟨w, hwn⟩ : ∃ w, s.maxWorkers.toNat = w + 1 := ⟨s.maxWorkers.toNat - 1, by omega⟩
  unfold processBatch pbRun
  rw [if_neg hq]
  simp only [hwn]
  rw [← List.foldl_flatten]
  rw [chunkArray_flatten w (s.processingQueue.take s.batchSize.toNat).length _ (le_refl _)]

/-! ## Claim C9: the batch summary invariants -/

/-- C9: on a non-empty queue (with the positive configuration the constructor
defaults guarantee) the summary satisfies `processed = completed + failed`,
the errors list has exactly `failed` entries, and `processed` is
`min(queue length, batchSize)` — the number of tasks withdrawn from the head
of the queue. -/
theorem C9_batch_summary (s : Service) (extract : Document → Int → Except String α)
    (now : Int) (hq : ¬ s.processingQueue = []) (hb : 0 < s.batchSize)
    (hw : 0 < s.maxWorkers) :
    (processBatch s extract now).1.processed
      = (processBatch s extract now).1.completed + (processBatch s extract now).1.failed ∧
    (∃ es, (processBatch s extract now).1.errors = some es ∧
      es.length = (processBatch s extract now).1.failed) ∧
    ((processBatch s extract now).1.processed : Int)
      = min (s.processingQueue.length : Int) s.batchSize := by
  rw [processBatch_nonempty s extract now hq hw]
  have hinv := foldl_processOne_invariant extract now
    (s.processingQueue.take s.batchSize.toNat)
    { svc := { s with processingQueue := s.processingQueue.drop s.batchSize.toNat }
      completed := 0, failed := 0, errors := [] }
  have h1 : (pbRun s extract now).completed + (pbRun s extract now).failed
      = (s.processingQueue.take s.batchSize.toNat).length := by
    have hx := hinv.1
    simp at hx
    unfold pbRun
    simp only [List.length_take]
    exact hx
  have h2 : (pbRun s extract now).errors.length = (pbRun s extract now).failed := by
    have hx := hinv.2.1
    simp at hx
    unfold pbRun
    exact hx
  have hbn : (s.batchSize.toNat : Int) = s.batchSize := Int.toNat_of_nonneg (by omega)
  have h3 : ((s.processingQueue.take s.batchSize.toNat).length : Int)
      = min (s.processingQueue.length : Int) s.batchSize := by
    rw [List.length_take]
    rcases le_total s.batchSize ((s.processingQueue.length : Nat) : Int) with h | h
    · have hnle : s.batchSize.toNat ≤ s.processingQueue.length := by omega
      rw [min_eq_left hnle, min_eq_right h]
      exact hbn
    · have hnle : s.processingQueue.length ≤ s.batchSize.toNat := by omega
      rw [min_eq_right hnle, min_eq_left h]
  exact ⟨by dsimp only; omega, ⟨_, rfl, by dsimp only; omega⟩, by dsimp only; exact h3⟩

/-- Witness for C9: one queued document processed with an always-succeeding
extraction. -/
theorem C9_witness :
    (processBatch serviceQueued1 (fun _ _ => (.ok () : Except String Unit)) 0).1.processed
      = (processBatch serviceQueued1 (fun _ _ => (.ok () : Except String Unit)) 0).1.completed
        + (processBatch serviceQueued1 (fun _ _ => (.ok () : Except String Unit)) 0).1.failed ∧
    (∃ es, (processBatch serviceQueued1 (fun _ _ => (.ok () : Except String Unit)) 0).1.errors = some es ∧
      es.length = (processBatch serviceQueued1 (fun _ _ => (.ok () : Except String Unit)) 0).1.failed) ∧
    ((processBatch serviceQueued1 (fun _ _ => (.ok () : Except String Unit)) 0).1.processed : Int)
      = min ((serviceQueued1.processingQueue.length : Nat) : Int) serviceQueued1.batchSize :=
  C9_batch_summary serviceQueued1 (fun _ _ => (.ok () : Except String Unit)) 0
    (by decide) (by decide) (by decide)

/-! ## Claim C10: the empty-queue early return -/

/-- C10: on an empty pending queue `processBatch` returns the zero summary
with a message and no errors list, and leaves the whole service state — the
queue and both result collections — unchanged. -/
theorem C10_empty_queue (s : Service) (extract : Document → Int → Except String α)
    (now : Int) (hq : s.processingQueue = []) :
    processBatch s extract now =
      ({ processed := 0, completed := 0, failed := 0, errors := none
         message := some "No documents in queue to process" }, s) := by
  unfold processBatch
  rw [if_pos hq]

/-- Witness for C10: the freshly constructed default service. -/
theorem C10_witness :
    processBatch defaultService (fun _ _ => (.error "boom" : Except String Unit)) 0 =
      ({ processed := 0, completed := 0, failed := 0, errors := none
         message := some "No documents in queue to process" }, defaultService) :=
  C10_empty_queue defaultService (fun _ _ => (.error "boom" : Except String Unit)) 0 rfl

end BatchSDK
